import Mathlib

/-!
Shallow embedding of `adcircpy/forcing/tides/tpxo.py` (class `TPXO`).

Numeric values (longitudes, latitudes, grid values, grid spacings) are
modelled as `Rat`; every claim under study is structural (lengths, order,
error paths, candidate-set characterisation) and does not depend on
float rounding.  NumPy / SciPy behaviour that the module relies on is
embedded with explicit error values:

* `np.min` / `np.max` of an empty array raise
  `ValueError: zero-size array to reduction operation` — modelled as the
  error `zeroSizeReduction`;
* `scipy.interpolate.griddata((xs, ys), vals, (qx, qy), method='nearest')`
  broadcasts the two query coordinate arrays against each other
  (`np.broadcast_arrays`): equal lengths zip; a length-1 array is
  repeated; otherwise a ValueError — modelled as `broadcastValueError`;
* with an empty candidate point set, the nearest-neighbour lookup inside
  SciPy indexes past the end of the value array, an error internal to the
  library — modelled as `emptyCandidatesIndexError`.  No explicit
  empty-candidate check exists anywhere in the module.
-/

namespace TPXOSpec

/-- A query point: (longitude, latitude).  `vertices` in the source is an
`(N, 2)` float array; a `List Vertex` carries the rectangular 2-column
shape in its type. -/
abbrev Vertex := Rat × Rat

/-- The dataset handle: the two 1-D coordinate axes and the two 3-D
value grids, as exposed by properties `TPXO.x`, `TPXO.y`, `TPXO.ha`,
`TPXO.hp` (tpxo.py lines 70–87).  `x` reads `dataset['lon_z'][:, 0]` and
`y` reads `dataset['lat_z'][0, :]`, i.e. the plain 1-D axes, which is
what `lon_z` / `lat_z` hold here.  `ha`/`hp` are indexed
[constituent][lon-index][lat-index]. -/
structure TPXODataset where
  lon_z : List Rat
  lat_z : List Rat
  ha : List (List (List Rat))
  hp : List (List (List Rat))
deriving DecidableEq

/-- Errors a call can signal.  Each constructor names the concrete
Python exception it models (see module docstring above). -/
inductive TPXOError where
  /-- `ValueError` from `list.index` at tpxo.py line 94 when the name is
  not in `CONSTITUENTS`. -/
  | unknownConstituent (name : String)
  /-- `ValueError` from `np.min`/`np.max` on the empty normalised
  longitude array (tpxo.py line 107). -/
  | zeroSizeReduction
  /-- NumPy broadcast `ValueError` inside `griddata` when the query
  coordinate arrays have incompatible lengths. -/
  | broadcastValueError
  /-- SciPy-internal failure when `griddata` is handed an empty
  candidate point set. -/
  | emptyCandidatesIndexError
  /-- Shape assertion failure on malformed `vertices`
  (`InvalidInputError` in the spec). -/
  | invalidInput
  /-- `FileNotFoundError` raised by `TPXO.__init__` (tpxo.py line 39),
  carrying the joined diagnostic message. -/
  | fileNotFound (msg : String)
deriving DecidableEq

deriving instance DecidableEq for Except

/-- tpxo.py lines 22–23: the fixed 15-entry constituent catalog. -/
def CONSTITUENTS : List String :=
  ["M2", "S2", "N2", "K2", "K1", "O1", "P1", "Q1", "Mm", "Mf",
   "M4", "MN4", "MS4", "2N2", "S1"]

/-- tpxo.py line 12. -/
def TPXO_ENVIRONMENT_VARIABLE : String := "TPXO_NCFILE"

/-- tpxo.py line 13. -/
def TPXO_FILENAME : String := "h_tpxo9.v1.nc"

/-- Property `TPXO.x` (tpxo.py lines 70–72): the 1-D longitude axis. -/
def x (ds : TPXODataset) : List Rat := ds.lon_z

/-- Property `TPXO.y` (tpxo.py lines 74–76): the 1-D latitude axis. -/
def y (ds : TPXODataset) : List Rat := ds.lat_z

/-- `np.diff`: successive differences of a 1-D array. -/
def diffList : List Rat → List Rat
  | a :: b :: rest => (b - a) :: diffList (b :: rest)
  | _ => []

/-- `np.mean` of a 1-D array.  (On an empty array NumPy yields NaN with
a warning; `Rat` division by zero yields `0`.  The axes of a TPXO grid
have well over two points, and every theorem that depends on `mean`
either hypothesises or instantiates axes of length ≥ 2.) -/
def mean (l : List Rat) : Rat := l.sum / (l.length : Rat)

/-- `np.min` of a 1-D array, `none` on the empty array (where NumPy
raises `ValueError: zero-size array to reduction operation`). -/
def npMin : List Rat → Option Rat
  | [] => none
  | a :: rest => some (rest.foldl min a)

/-- `np.max` of a 1-D array, `none` on the empty array. -/
def npMax : List Rat → Option Rat
  | [] => none
  | a :: rest => some (rest.foldl max a)

/-- `np.min` with a (never-consulted) default, for use after the
emptiness of the array has already been ruled out. -/
def npMinD (l : List Rat) : Rat := (npMin l).getD 0

/-- `np.max` with a (never-consulted) default. -/
def npMaxD (l : List Rat) : Rat := (npMax l).getD 0

/-- `np.meshgrid(X, Y, indexing='ij')[0].flatten()` — longitude varies
slowest: the flat array is `X[0]` repeated `|Y|` times, then `X[1]`
repeated `|Y|` times, and so on (tpxo.py lines 98–100). -/
def meshgridX (X Y : List Rat) : List Rat :=
  (X.map (fun xi => Y.map (fun _ => xi))).flatten

/-- `np.meshgrid(X, Y, indexing='ij')[1].flatten()` — latitude varies
fastest: the flat array is `Y` repeated `|X|` times. -/
def meshgridY (X Y : List Rat) : List Rat :=
  (X.map (fun _ => Y)).flatten

/-- `np.where(cond)` on a 1-D boolean array of length `n`: the indices,
in increasing order, where the condition holds. -/
def whereIdx (n : Nat) (p : Nat → Bool) : List Nat :=
  (List.range n).filter p

/-- NumPy fancy indexing `l[idx]` with an index array produced by
`np.where` over an array of length `|l|`: every index is in range, so
the default is never consulted. -/
def fancyIdx (l : List Rat) (idx : List Nat) : List Rat :=
  idx.map (fun i => l.getD i 0)

/-- `np.broadcast_arrays(xs, ys)` for two 1-D arrays, zipped into
points: equal lengths pair up; a length-1 array is repeated to the
other's length; otherwise the shapes are incompatible (`none`, where
NumPy raises ValueError). -/
def broadcastPair (xs ys : List Rat) : Option (List Vertex) :=
  if xs.length = ys.length then some (xs.zip ys)
  else if xs.length = 1 then some (ys.map (fun yv => (xs.headD 0, yv)))
  else if ys.length = 1 then some (xs.map (fun xv => (xv, ys.headD 0)))
  else none

/-- Squared Euclidean distance in (lon, lat) space. -/
def dist2 (p q : Vertex) : Rat :=
  (p.1 - q.1) * (p.1 - q.1) + (p.2 - q.2) * (p.2 - q.2)

/-- Value of the candidate nearest to `q`; on a distance tie the
earlier candidate in the list wins (the underlying routine's
deterministic first-encountered tie-break).  The `[]` case is
unreachable: callers rule out an empty candidate list first. -/
def nearestValue (cands : List (Vertex × Rat)) (q : Vertex) : Rat :=
  match cands with
  | [] => 0
  | c :: rest =>
    (rest.foldl (fun best d => if dist2 d.1 q < dist2 best.1 q then d else best) c).2

/-- `scipy.interpolate.griddata((ptsX, ptsY zipped), vals, (qx, qy),
method='nearest')`: broadcast the query coordinate arrays, then assign
each query point the value of its nearest candidate.  The two failure
modes are modelled per the module docstring. -/
def griddata (pts : List Vertex) (vals : List Rat) (qx qy : List Rat) :
    Except TPXOError (List Rat) :=
  match broadcastPair qx qy with
  | none => .error .broadcastValueError
  | some qs =>
    if pts.isEmpty then .error .emptyCandidatesIndexError
    else .ok (qs.map (nearestValue (pts.zip vals)))

/-- Modelled from the spec: `TidalDataset._assert_vertices` lives in
`adcircpy/forcing/tides/dataset.py`, which is not under src/.  Spec:
"`points` is not a rectangular 2-column numeric structure → fails with
`InvalidInputError`".  A `List Vertex` is rectangular and 2-column by
construction, so the check always succeeds here. -/
def _assert_vertices (_ : List Vertex) : Bool := true

/-- The bounding-box candidate selection of tpxo.py lines 105–116: the
boolean condition is evaluated over the flattened grid coordinate
arrays, `np.where` turns it into an index array `_idx`, and the three
parallel flat arrays are fancy-indexed by it, yielding
`(x[_idx], y[_idx], array[_idx])`. -/
def gridSelection (ds : TPXODataset) (arrayFlat _x _y : List Rat) :
    List Rat × List Rat × List Rat :=
  let xg := meshgridX (x ds) (y ds)
  let yg := meshgridY (x ds) (y ds)
  let dx := mean (diffList (x ds))
  let dy := mean (diffList (y ds))
  let xmin := npMinD _x
  let xmax := npMaxD _x
  let ymin := npMinD _y
  let ymax := npMaxD _y
  let _idx := whereIdx xg.length (fun i =>
    (decide (xmin - 2 * dx ≤ xg.getD i 0) && decide (xg.getD i 0 ≤ xmax + 2 * dx)) &&
    (decide (ymin - 2 * dy ≤ yg.getD i 0) && decide (yg.getD i 0 ≤ ymax + 2 * dy)))
  (fancyIdx xg _idx, fancyIdx yg _idx, fancyIdx arrayFlat _idx)

/-- The normalised query longitude array of tpxo.py line 96:
`np.asarray([x + 360. for x in vertices[:, 0] if x < 0])` — a list
comprehension that KEEPS only the strictly negative longitudes (each
shifted by +360) and silently drops the rest. -/
def normLons (vertices : List Vertex) : List Rat :=
  ((vertices.map Prod.fst).filter (fun a => decide (a < 0))).map (fun a => a + 360)

/-- `TPXO._get_interpolation` (tpxo.py lines 85–124), line by line:
shape assertion; `CONSTITUENTS.index` (ValueError when absent); flatten
the constituent's 2-D slice; build `_x` (line 96) and `_y` (line 97);
`np.min`/`np.max` of `_x` then `_y` raise on empty arrays while the
`np.where` condition is being evaluated; select the candidate triple;
hand everything to `griddata` with `method='nearest'`. -/
def _get_interpolation (ds : TPXODataset) (tpxo_array : List (List (List Rat)))
    (constituent : String) (vertices : List Vertex) : Except TPXOError (List Rat) :=
  if _assert_vertices vertices then
    match CONSTITUENTS.findIdx? (fun s => s == constituent) with
    | none => .error (.unknownConstituent constituent)
    | some ci =>
      let array := (tpxo_array.getD ci []).flatten
      let _x := normLons vertices
      let _y := vertices.map Prod.snd
      if _x.isEmpty then .error .zeroSizeReduction
      else if _y.isEmpty then .error .zeroSizeReduction
      else
        let sel := gridSelection ds array _x _y
        griddata (sel.1.zip sel.2.1) sel.2.2 _x _y
  else .error .invalidInput

/-- `TPXO.get_amplitude` (tpxo.py lines 49–57): assert the vertex
shape, then interpolate against the amplitude grid `ha`. -/
def get_amplitude (ds : TPXODataset) (constituent : String)
    (vertices : List Vertex) : Except TPXOError (List Rat) :=
  if _assert_vertices vertices then _get_interpolation ds ds.ha constituent vertices
  else .error .invalidInput

/-- `TPXO.get_phase` (tpxo.py lines 59–67): assert the vertex shape,
then interpolate against the phase grid `hp`. -/
def get_phase (ds : TPXODataset) (constituent : String)
    (vertices : List Vertex) : Except TPXOError (List Rat) :=
  if _assert_vertices vertices then _get_interpolation ds ds.hp constituent vertices
  else .error .invalidInput

/-- The lookup object's state: just the opened dataset.  The method
bodies of `get_amplitude`, `get_phase` and `_get_interpolation` contain
no attribute assignment — they only read `self.dataset` (through the
properties `x`, `y`, `ha`, `hp`) and `self.CONSTITUENTS` — so a call is
modelled as returning the result together with the (unchanged) state. -/
structure TPXOState where
  dataset : TPXODataset
deriving DecidableEq

/-- `get_amplitude` as a state-passing operation on the lookup object. -/
def get_amplitude_state (s : TPXOState) (constituent : String)
    (vertices : List Vertex) : Except TPXOError (List Rat) × TPXOState :=
  (get_amplitude s.dataset constituent vertices, s)

/-- `get_phase` as a state-passing operation on the lookup object. -/
def get_phase_state (s : TPXOState) (constituent : String)
    (vertices : List Vertex) : Except TPXOError (List Rat) × TPXOState :=
  (get_phase s.dataset constituent vertices, s)

/-- Python `str` of the `self.path` attribute inside an f-string:
`None` prints as the four characters `None`. -/
def pyStrOfPath : Option String → String
  | some p => p
  | none => "None"

/-- The `FileNotFoundError` message of tpxo.py lines 39–47:
the newline-join of the five lines, with `self.path` interpolated twice. -/
def tpxoNotFoundMessage (path : Option String) : String :=
  String.intercalate "\n" [
    "No TPXO file found at \"" ++ pyStrOfPath path ++ "\".",
    "New users will need to register and request a copy of " ++
      "the TPXO9 NetCDF file (specifically `" ++ TPXO_FILENAME ++ "`) " ++
      "from the authors at https://www.tpxo.net.",
    "Once you obtain `h_tpxo9.v1.nc`, you can follow one of the following options: ",
    "1) copy or symlink the file to \"" ++ pyStrOfPath path ++ "\"",
    "2) set the environment variable `" ++ TPXO_ENVIRONMENT_VARIABLE ++
      "` to point to the file"]

/-- Modelled from the spec: `TidalDataset.__init__` / the `path`
resolution live in `adcircpy/forcing/tides/dataset.py`, which is not
under src/.  Spec: the collaborator is "treated as a collaborator that
supplies a path string or raises not-found"; construction "fails ... if
no resolvable path exists".  So `self.path` becomes the supplied
filename when a file exists there on the filesystem `fs`, and `None`
otherwise (the only behaviour under which the explicit
`FileNotFoundError` branch of `TPXO.__init__` is reachable). -/
def tidalDatasetPath (fs : List String) (filename : String) : Option String :=
  if fs.contains filename then some filename else none

/-- `TPXO.__init__` (tpxo.py lines 26–47).  `fs` is the set of existing
files, `env` the value of `os.getenv('TPXO_NCFILE')`, `userDataDir` the
`appdirs.user_data_dir('tpxo')` directory (so `DEFAULT_PATH` is
`userDataDir / TPXO_FILENAME`), and `arg` the explicit
`tpxo_dataset_filename` argument.  On success the opened path stands in
for the `Dataset` handle.  In the failure branch `self.path` is `None`,
and the message interpolates that `None`. -/
def tpxo_init (fs : List String) (env : Option String) (userDataDir : String)
    (arg : Option String) : Except TPXOError String :=
  let filename : String :=
    match arg with
    | some f => f
    | none =>
      match env with
      | some e => e
      | none => userDataDir ++ "/" ++ TPXO_FILENAME
  match tidalDatasetPath fs filename with
  | some p => .ok p
  | none => .error (.fileNotFound (tpxoNotFoundMessage none))

/-- Substring occurrence test on character lists (plain containment). -/
def subIn (needle : List Char) : List Char → Bool
  | [] => needle.isEmpty
  | c :: t => needle.isPrefixOf (c :: t) || subIn needle t

/-- `needle` occurs as a contiguous substring of `hay`. -/
def strContains (hay needle : String) : Bool :=
  subIn needle.toList hay.toList

end TPXOSpec

namespace TPXOSpec

/-- A 5×4 value slice for a synthetic dataset: the value at grid
position (i, j) is `10·i + j`, so every grid node holds a distinct
value. -/
def exSlice : List (List Rat) :=
  [[0, 1, 2, 3], [10, 11, 12, 13], [20, 21, 22, 23],
   [30, 31, 32, 33], [40, 41, 42, 43]]

/-- A synthetic dataset with a 1°-spaced longitude axis around 190°
and a 1°-spaced latitude axis around 0°; every constituent layer is
`exSlice`. -/
def exDS : TPXODataset :=
  { lon_z := [188, 189, 190, 191, 192]
  , lat_z := [-1, 0, 1, 2]
  , ha := List.replicate 15 exSlice
  , hp := List.replicate 15 exSlice }

/-- A synthetic dataset whose coordinates cover only [0°, 3°] × [0°, 3°],
used to produce an empty candidate set. -/
def exDS4 : TPXODataset :=
  { lon_z := [0, 1, 2, 3]
  , lat_z := [0, 1, 2, 3]
  , ha := List.replicate 15 (List.replicate 4 (List.replicate 4 (0 : Rat)))
  , hp := List.replicate 15 (List.replicate 4 (List.replicate 4 (0 : Rat))) }

/-- If a value is nowhere in the list, `findIdx?` with the equality
test finds nothing (the `list.index` ValueError case). -/
theorem findIdx_none_of_not_mem {l : List String} {a : String} (h : a ∉ l) :
    l.findIdx? (fun s => s == a) = none := by
  rw [List.findIdx?_eq_none_iff]
  intro xx hxx
  simp only [beq_eq_false_iff_ne, ne_eq]
  exact fun e => h (e ▸ hxx)

/-- If a value is in the list, `findIdx?` with the equality test
succeeds. -/
theorem findIdx_isSome_of_mem {l : List String} {a : String} (h : a ∈ l) :
    ∃ i, l.findIdx? (fun s => s == a) = some i := by
  cases hf : l.findIdx? (fun s => s == a) with
  | some i => exact ⟨i, rfl⟩
  | none =>
    rw [List.findIdx?_eq_none_iff] at hf
    have := hf a h
    simp at this

/-- C1: the claim says every well-formed N-point query returns exactly N
values; in the code the longitude list comprehension (tpxo.py line 96)
drops the non-negative longitude, `np.min` is then taken of an empty
array, and the call dies with a ValueError instead of returning one
value per point.  Concretely: a single query point at (45°, 33°). -/
theorem C1_nonneg_longitude_returns_error :
    get_amplitude exDS "M2" [((45 : Rat), 33)] = .error .zeroSizeReduction ∧
    get_phase exDS "M2" [((45 : Rat), 33)] = .error .zeroSizeReduction :=
  ⟨rfl, rfl⟩

set_option maxRecDepth 8000 in
/-- C2: the claim says a non-negative query longitude passes through
unchanged, so (190°, 0°) and (-170°, 0°) interpolate identically; in
the code the comprehension at tpxo.py line 96 is a filter, so the
longitude 190 is dropped entirely: the (190°, 0°) query raises the
zero-size-reduction ValueError while the (-170°, 0°) query returns a
value. -/
theorem C2_nonneg_longitude_dropped_not_passed_through :
    get_amplitude exDS "M2" [((190 : Rat), 0)] = .error .zeroSizeReduction ∧
    get_amplitude exDS "M2" [((-170 : Rat), 0)] = .ok [21] :=
  ⟨by with_unfolding_all decide, by with_unfolding_all decide⟩

set_option maxRecDepth 8000 in
/-- C4: with a padded bounding box containing no grid point (query at
(-10°, 500°) against a dataset covering [0°, 3°] × [0°, 3°]; the
normalised longitude 350° is far outside the axis), the code hands the
empty candidate set straight to `griddata` and the failure that
surfaces is the library-internal one — there is no explicit
`InterpolationError` check anywhere in the module. -/
theorem C4_empty_candidates_internal_failure :
    get_amplitude exDS4 "M2" [((-10 : Rat), 500)]
      = .error .emptyCandidatesIndexError ∧
    get_phase exDS4 "M2" [((-10 : Rat), 500)]
      = .error .emptyCandidatesIndexError :=
  ⟨by with_unfolding_all decide, by with_unfolding_all decide⟩

set_option maxRecDepth 4000 in
/-- C5: constructing with a nonexistent path and no environment
variable fails at construction time, and the message does state the
external provider and the two resolution mechanisms — but in the
failure branch `self.path` is `None`, so the message interpolates the
four characters `None` and does NOT contain the attempted path. -/
theorem C5_message_contains_none_not_attempted_path :
    tpxo_init [] none "/home/user/.local/share/tpxo" (some "/missing.nc")
      = .error (.fileNotFound (tpxoNotFoundMessage none)) ∧
    strContains (tpxoNotFoundMessage none) "None" = true ∧
    strContains (tpxoNotFoundMessage none) "https://www.tpxo.net" = true ∧
    strContains (tpxoNotFoundMessage none) TPXO_ENVIRONMENT_VARIABLE = true ∧
    strContains (tpxoNotFoundMessage none) "/missing.nc" = false := by
  refine ⟨rfl, ?_, ?_, ?_, ?_⟩ <;> decide

/-- C3: any constituent name outside the 15-entry catalog makes
`list.index` fail before any other work, for both operations, on every
dataset and every query — the dedicated unknown-constituent failure of
the spec. -/
theorem C3_unknown_constituent_fails (ds : TPXODataset) (c : String)
    (v : List Vertex) (h : c ∉ CONSTITUENTS) :
    get_amplitude ds c v = .error (.unknownConstituent c) ∧
    get_phase ds c v = .error (.unknownConstituent c) := by
  have hf := findIdx_none_of_not_mem h
  exact ⟨by simp [get_amplitude, _get_interpolation, _assert_vertices, hf],
         by simp [get_phase, _get_interpolation, _assert_vertices, hf]⟩

/-- C3 witness: the spec's own example, `get_amplitude("XX", points)`. -/
theorem C3_unknown_constituent_fails_witness :
    "XX" ∉ CONSTITUENTS ∧
    get_amplitude exDS "XX" [((-170 : Rat), 0)]
      = .error (.unknownConstituent "XX") :=
  ⟨by decide, (C3_unknown_constituent_fails exDS "XX" [((-170 : Rat), 0)] (by decide)).1⟩

/-- C8: determinism — a second call with the same constituent and the
same query points, on the state left behind by the first call, returns
the same result. -/
theorem C8_deterministic (s : TPXOState) (c : String) (v : List Vertex) :
    (get_amplitude_state (get_amplitude_state s c v).2 c v).1
      = (get_amplitude_state s c v).1 ∧
    (get_phase_state (get_phase_state s c v).2 c v).1
      = (get_phase_state s c v).1 :=
  ⟨rfl, rfl⟩

/-- C9: frame property — a call leaves the lookup object's state (the
dataset handle with its catalog, axes and grids) exactly as it was. -/
theorem C9_state_unchanged (s : TPXOState) (c : String) (v : List Vertex) :
    (get_amplitude_state s c v).2 = s ∧ (get_phase_state s c v).2 = s :=
  ⟨rfl, rfl⟩

end TPXOSpec

namespace TPXOSpec

/-- `getD` through `map`, inside the bounds. -/
theorem getD_map {α β : Type} (f : α → β) (d : α) (d' : β) :
    ∀ (l : List α) (i : Nat), i < l.length → (l.map f).getD i d' = f (l.getD i d) := by
  intro l
  induction l with
  | nil => intro i h; exact absurd h (Nat.not_lt_zero i)
  | cons a t ih =>
    intro i h
    cases i with
    | zero => rfl
    | succ i' =>
      simp only [List.map_cons, List.getD_cons_succ]
      exact ih i' (Nat.lt_of_succ_lt_succ h)

/-- `getD` into a flattened list of rows all of length `M`: flat
position `i·M + j` reads row `i`, column `j`. -/
theorem flatten_getD (M : Nat) :
    ∀ (ll : List (List Rat)) (i j : Nat), (∀ r ∈ ll, r.length = M) →
      i < ll.length → j < M →
      ll.flatten.getD (i * M + j) 0 = (ll.getD i []).getD j 0 := by
  intro ll
  induction ll with
  | nil => intro i j _ hi _; exact absurd hi (Nat.not_lt_zero i)
  | cons r t ih =>
    intro i j hr hi hj
    have hrM : r.length = M := hr r (List.mem_cons_self r t)
    cases i with
    | zero =>
      simp only [List.flatten_cons, Nat.zero_mul, Nat.zero_add, List.getD_cons_zero]
      exact List.getD_append r t.flatten 0 j (hrM ▸ hj)
    | succ i' =>
      simp only [List.flatten_cons, List.getD_cons_succ]
      have hx : (i' + 1) * M + j = r.length + (i' * M + j) := by
        rw [hrM]; ring
      rw [hx, List.getD_append_right r t.flatten 0 _ (Nat.le_add_right _ _),
        Nat.add_sub_cancel_left]
      exact ih i' j (fun s hs => hr s (List.mem_cons_of_mem r hs))
        (Nat.lt_of_succ_lt_succ hi) hj

/-- In the flattened longitude mesh, position `i·|Y| + j` holds the
`i`-th longitude. -/
theorem meshgridX_getD (X Y : List Rat) (i j : Nat)
    (hi : i < X.length) (hj : j < Y.length) :
    (meshgridX X Y).getD (i * Y.length + j) 0 = X.getD i 0 := by
  unfold meshgridX
  rw [flatten_getD Y.length (X.map fun xi => Y.map fun _ => xi) i j
    (by intro r hr; rcases List.mem_map.1 hr with ⟨xi, _, rfl⟩; simp)
    (by simpa using hi) hj]
  rw [getD_map (fun xi => Y.map fun _ => xi) 0 [] X i hi]
  rw [getD_map (fun _ => X.getD i 0) 0 0 Y j hj]

/-- In the flattened latitude mesh, position `i·|Y| + j` holds the
`j`-th latitude. -/
theorem meshgridY_getD (X Y : List Rat) (i j : Nat)
    (hi : i < X.length) (hj : j < Y.length) :
    (meshgridY X Y).getD (i * Y.length + j) 0 = Y.getD j 0 := by
  unfold meshgridY
  rw [flatten_getD Y.length (X.map fun _ => Y) i j
    (by intro r hr; rcases List.mem_map.1 hr with ⟨xi, _, rfl⟩; rfl)
    (by simpa using hi) hj]
  rw [getD_map (fun _ => Y) 0 [] X i hi]

/-- C7: the flattened grid coordinate arrays are the Cartesian product
of the longitude and latitude axes with longitude varying slowest, and
the flattened constituent slice is index-aligned with them: for axis
lengths (L, M) and `i < L`, `j < M`, flat position `i·M + j` holds
`longitude[i]`, `latitude[j]`, and the grid value at `(i, j)`. -/
theorem C7_flattened_grid_alignment (ds : TPXODataset) (c : String) (ci : Nat)
    (_hc : CONSTITUENTS.findIdx? (fun s => s == c) = some ci)
    (i j : Nat) (hi : i < (x ds).length) (hj : j < (y ds).length)
    (hrows : ∀ r ∈ ds.ha.getD ci [], r.length = (y ds).length)
    (hL : (ds.ha.getD ci []).length = (x ds).length) :
    (meshgridX (x ds) (y ds)).getD (i * (y ds).length + j) 0 = (x ds).getD i 0 ∧
    (meshgridY (x ds) (y ds)).getD (i * (y ds).length + j) 0 = (y ds).getD j 0 ∧
    ((ds.ha.getD ci []).flatten).getD (i * (y ds).length + j) 0
      = ((ds.ha.getD ci []).getD i []).getD j 0 := by
  refine ⟨meshgridX_getD _ _ i j hi hj, meshgridY_getD _ _ i j hi hj, ?_⟩
  exact flatten_getD (y ds).length (ds.ha.getD ci []) i j hrows (hL ▸ hi) hj

/-- C7 witness: in `exDS`, with `M2` resolved to layer 0, flat position
`2·4 + 1` of the flattened meshes and of the flattened slice holds
longitude 190, latitude 0, and the value stored at grid cell (2, 1). -/
theorem C7_flattened_grid_alignment_witness :
    CONSTITUENTS.findIdx? (fun s => s == "M2") = some 0 ∧
    (meshgridX (x exDS) (y exDS)).getD (2 * (y exDS).length + 1) 0
      = (x exDS).getD 2 0 ∧
    (meshgridY (x exDS) (y exDS)).getD (2 * (y exDS).length + 1) 0
      = (y exDS).getD 1 0 ∧
    ((exDS.ha.getD 0 []).flatten).getD (2 * (y exDS).length + 1) 0
      = ((exDS.ha.getD 0 []).getD 2 []).getD 1 0 := by
  refine ⟨by decide, ?_⟩
  exact C7_flattened_grid_alignment exDS "M2" 0 (by decide) 2 1
    (by decide) (by decide) (by decide) (by decide)

end TPXOSpec

namespace TPXOSpec

/-- A filter commutes past a map. -/
theorem filter_map_comm {α β : Type} (f : α → β) (p : β → Bool) :
    ∀ l : List α, (l.map f).filter p = (l.filter (fun a => p (f a))).map f := by
  intro l
  induction l with
  | nil => rfl
  | cons a t ih =>
    simp only [List.map_cons, List.filter_cons]
    cases h : p (f a) <;> simp [h, ih]

/-- Selecting three parallel arrays of equal length through the index
set `np.where` produces is the same as filtering their zip by the
condition on the coordinates. -/
theorem range_filter_zip (P : Rat → Rat → Bool) :
    ∀ (a b c : List Rat), a.length = b.length → a.length = c.length →
      ((List.range a.length).filter
          (fun i => P (a.getD i 0) (b.getD i 0))).map
          (fun i => ((a.getD i 0, b.getD i 0), c.getD i 0))
        = ((a.zip b).zip c).filter (fun t => P t.1.1 t.1.2) := by
  intro a
  induction a with
  | nil => intro b c _ _; simp
  | cons xa a ih =>
    intro b c hb hc
    cases b with
    | nil => simp at hb
    | cons yb b' =>
      cases c with
      | nil => simp at hc
      | cons zc c' =>
        have hb' : a.length = b'.length := by simpa using hb
        have hc' : a.length = c'.length := by simpa using hc
        rw [List.length_cons, List.range_succ_eq_map, List.filter_cons]
        simp only [List.getD_cons_zero, List.getD_cons_succ]
        rw [filter_map_comm Nat.succ _ (List.range a.length)]
        simp only [List.getD_cons_succ]
        cases hP : P xa yb with
        | true =>
          simp only [hP, if_true, List.zip_cons_cons, List.filter_cons,
            List.getD_cons_zero, List.map_cons, List.map_map,
            Function.comp_def, List.getD_cons_succ]
          rw [ih b' c' hb' hc']
        | false =>
          simp only [hP, Bool.false_eq_true, if_false, List.zip_cons_cons,
            List.filter_cons, List.getD_cons_zero, List.map_map,
            Function.comp_def, List.getD_cons_succ]
          exact ih b' c' hb' hc'

/-- Length of the flattened longitude mesh. -/
theorem meshgridX_length (X Y : List Rat) :
    (meshgridX X Y).length = X.length * Y.length := by
  induction X with
  | nil => simp [meshgridX]
  | cons a t ih =>
    simp only [meshgridX, List.map_cons, List.flatten_cons, List.length_append,
      List.length_map, List.length_cons] at *
    rw [ih, Nat.succ_mul, Nat.add_comm]

/-- Length of the flattened latitude mesh. -/
theorem meshgridY_length (X Y : List Rat) :
    (meshgridY X Y).length = X.length * Y.length := by
  induction X with
  | nil => simp [meshgridY]
  | cons a t ih =>
    simp only [meshgridY, List.map_cons, List.flatten_cons, List.length_append,
      List.length_cons] at *
    rw [ih, Nat.succ_mul, Nat.add_comm]

end TPXOSpec

namespace TPXOSpec

/-- C6: the candidate grid-point set of a lookup is exactly the set of
grid points whose longitude lies within the joint min/max of the
normalised query longitudes padded by `2·dx` and whose latitude lies
within the joint min/max of the query latitudes padded by `2·dy`,
where `dx`/`dy` are the means of successive differences of the axes —
the `np.where` index selection over the flattened meshes equals a
direct filter of the zipped (coordinate, value) triples by the
bounding-box condition, computed once over all query points jointly. -/
theorem C6_candidate_bbox (ds : TPXODataset) (arrayFlat : List Rat) (v : List Vertex)
    (hlen : arrayFlat.length = (meshgridX (x ds) (y ds)).length) :
    (((gridSelection ds arrayFlat (normLons v) (v.map Prod.snd)).1.zip
        (gridSelection ds arrayFlat (normLons v) (v.map Prod.snd)).2.1).zip
        (gridSelection ds arrayFlat (normLons v) (v.map Prod.snd)).2.2)
      = (((meshgridX (x ds) (y ds)).zip (meshgridY (x ds) (y ds))).zip arrayFlat).filter
          (fun t =>
            (decide (npMinD (normLons v) - 2 * mean (diffList (x ds)) ≤ t.1.1) &&
             decide (t.1.1 ≤ npMaxD (normLons v) + 2 * mean (diffList (x ds)))) &&
            (decide (npMinD (v.map Prod.snd) - 2 * mean (diffList (y ds)) ≤ t.1.2) &&
             decide (t.1.2 ≤ npMaxD (v.map Prod.snd) + 2 * mean (diffList (y ds))))) := by
  have hxy : (meshgridX (x ds) (y ds)).length = (meshgridY (x ds) (y ds)).length := by
    rw [meshgridX_length, meshgridY_length]
  simp only [gridSelection, whereIdx, fancyIdx]
  rw [List.zip_map', List.zip_map']
  exact range_filter_zip
    (fun u w =>
      (decide (npMinD (normLons v) - 2 * mean (diffList (x ds)) ≤ u) &&
       decide (u ≤ npMaxD (normLons v) + 2 * mean (diffList (x ds)))) &&
      (decide (npMinD (v.map Prod.snd) - 2 * mean (diffList (y ds)) ≤ w) &&
       decide (w ≤ npMaxD (v.map Prod.snd) + 2 * mean (diffList (y ds)))))
    (meshgridX (x ds) (y ds)) (meshgridY (x ds) (y ds)) arrayFlat hxy hlen.symm

/-- The flattened `M2` layer of `exDS`. -/
def exHaFlat : List Rat := (exDS.ha.getD 0 []).flatten

/-- A single-point query used to instantiate C6 concretely. -/
def exV : List Vertex := [((-170 : Rat), 0)]

/-- C6 witness: the characterisation instantiated on `exDS` with the
single query point (-170°, 0°). -/
theorem C6_candidate_bbox_witness :
    exHaFlat.length = (meshgridX (x exDS) (y exDS)).length ∧
    (((gridSelection exDS exHaFlat (normLons exV) (exV.map Prod.snd)).1.zip
        (gridSelection exDS exHaFlat (normLons exV) (exV.map Prod.snd)).2.1).zip
        (gridSelection exDS exHaFlat (normLons exV) (exV.map Prod.snd)).2.2)
      = (((meshgridX (x exDS) (y exDS)).zip (meshgridY (x exDS) (y exDS))).zip exHaFlat).filter
          (fun t =>
            (decide (npMinD (normLons exV) - 2 * mean (diffList (x exDS)) ≤ t.1.1) &&
             decide (t.1.1 ≤ npMaxD (normLons exV) + 2 * mean (diffList (x exDS)))) &&
            (decide (npMinD (exV.map Prod.snd) - 2 * mean (diffList (y exDS)) ≤ t.1.2) &&
             decide (t.1.2 ≤ npMaxD (exV.map Prod.snd) + 2 * mean (diffList (y exDS))))) :=
  ⟨by decide, C6_candidate_bbox exDS exHaFlat exV (by decide)⟩

/-- When neither query coordinate array has the other's length and
neither has length one, NumPy broadcasting fails. -/
theorem broadcastPair_eq_none (xs ys : List Rat) (h1 : xs.length ≠ ys.length)
    (h2 : xs.length ≠ 1) (h3 : ys.length ≠ 1) : broadcastPair xs ys = none := by
  simp [broadcastPair, h1, h2, h3]

set_option maxRecDepth 8000 in
/-- C10 counterexample: the claim says a call can only complete
normally when EVERY query longitude is strictly negative; but with
exactly one negative longitude among two points, the length-1
normalised array broadcasts against the length-2 latitude array, and
the call completes normally — here returning the value 21 for both
points (both interpolated at the lone normalised longitude 190°). -/
theorem C10_counterexample_one_negative_succeeds :
    get_amplitude exDS "M2" [((-170 : Rat), 0), ((10 : Rat), 0)] = .ok [21, 21] ∧
    ¬ ((10 : Rat) < 0) :=
  ⟨by with_unfolding_all decide, by norm_num⟩

/-- C10 (amended): a call can complete normally only when the count
`k` of strictly negative query longitudes satisfies `k = N` (all
negative) or `k = 1` (NumPy length-1 broadcasting); when `k = 0` the
zero-size `np.min` reduction fails, and when `1 < k < N` the
broadcast of the length-`k` longitude array against the length-`N`
latitude array fails before returning. -/
theorem C10_amended_negative_longitude_count (ds : TPXODataset) (c : String)
    (v : List Vertex) :
    ((∃ r, get_amplitude ds c v = .ok r) →
        1 ≤ (normLons v).length ∧
        ((normLons v).length = v.length ∨ (normLons v).length = 1)) ∧
    (c ∈ CONSTITUENTS → (normLons v).length = 0 →
        get_amplitude ds c v = .error .zeroSizeReduction) ∧
    (c ∈ CONSTITUENTS → 1 < (normLons v).length → (normLons v).length < v.length →
        get_amplitude ds c v = .error .broadcastValueError) := by
  have hyl : (v.map Prod.snd).length = v.length := List.length_map _ _
  have hxle : (normLons v).length ≤ v.length := by
    unfold normLons
    rw [List.length_map]
    exact le_trans (List.length_filter_le _ _) (le_of_eq (List.length_map _ _))
  refine ⟨?_, ?_, ?_⟩
  · rintro ⟨r, hr⟩
    simp only [get_amplitude, _assert_vertices, if_true] at hr
    cases hf : CONSTITUENTS.findIdx? (fun s => s == c) with
    | none =>
      simp only [_get_interpolation, _assert_vertices, if_true, hf] at hr
      exact Except.noConfusion hr
    | some ci =>
      simp only [_get_interpolation, _assert_vertices, if_true, hf] at hr
      cases hxe : (normLons v).isEmpty with
      | true => simp [hxe] at hr
      | false =>
        cases hye : (v.map Prod.snd).isEmpty with
        | true => simp [hxe, hye] at hr
        | false =>
          simp only [hxe, hye, Bool.false_eq_true, if_false] at hr
          have h1 : (normLons v).length ≠ 0 := by
            intro h0
            rw [List.length_eq_zero] at h0
            rw [h0] at hxe
            simp at hxe
          refine ⟨Nat.one_le_iff_ne_zero.mpr h1, ?_⟩
          by_cases hN : (normLons v).length = v.length
          · exact Or.inl hN
          · by_cases hone : (normLons v).length = 1
            · exact Or.inr hone
            · by_cases hN1 : v.length = 1
              · omega
              · have hbc := broadcastPair_eq_none
                  (normLons v) (v.map Prod.snd)
                  (by rw [hyl]; exact hN) hone (by rw [hyl]; exact hN1)
                simp [griddata, hbc] at hr
  · intro hc h0
    obtain ⟨ci, hf⟩ := findIdx_isSome_of_mem hc
    have hxe : (normLons v).isEmpty = true := by
      rw [List.length_eq_zero] at h0
      rw [h0]
      rfl
    simp [get_amplitude, _assert_vertices, _get_interpolation, hf, hxe]
  · intro hc hgt hlt
    obtain ⟨ci, hf⟩ := findIdx_isSome_of_mem hc
    have hxe : (normLons v).isEmpty = false := by
      cases hnl : normLons v with
      | nil => rw [hnl] at hgt; simp at hgt
      | cons a t => rfl
    have hye : (v.map Prod.snd).isEmpty = false := by
      cases hym : v.map Prod.snd with
      | nil =>
        have : (v.map Prod.snd).length = 0 := by rw [hym]; rfl
        omega
      | cons a t => rfl
    have hbc := broadcastPair_eq_none (normLons v) (v.map Prod.snd)
      (by omega) (by omega) (by omega)
    simp [get_amplitude, _assert_vertices, _get_interpolation, hf, hxe, hye,
      griddata, hbc]

/-- C10 (amended) witness: at a single non-negative-longitude query
point the count of negative longitudes is zero and the call fails with
the zero-size reduction error. -/
theorem C10_amended_witness :
    "M2" ∈ CONSTITUENTS ∧ (normLons [((10 : Rat), 0)]).length = 0 ∧
    get_amplitude exDS "M2" [((10 : Rat), 0)] = .error .zeroSizeReduction := by
  refine ⟨by decide, by with_unfolding_all decide, ?_⟩
  exact (C10_amended_negative_longitude_count exDS "M2" [((10 : Rat), 0)]).2.1
    (by decide) (by with_unfolding_all decide)

end TPXOSpec
